import Mathlib

/-!
# Verification of the TotalQuality document-management core

Shallow embedding of the document lifecycle service (`DocumentService`),
the revision-risk evaluator (`PredictiveAnalysisService`) and the
video-POP linker scoring functions (`VideoPOPIntegrationService`),
with proofs of the specified properties.

Conventions of the embedding:
* Firestore timestamps are modelled as natural numbers.
* JavaScript `number` values that take part in comparisons are modelled
  as `Int` (days-since-revision can be negative under clock skew; scores
  are caller-supplied numbers).
* A document's Firestore record together with its `history` subcollection
  is modelled as a `DocState`; a `get` on an absent document is the
  `none` case of `Option DocState`.
* A Firestore `.set` on a history document key is modelled by `histSet`,
  which overwrites the entry at that key if present and appends otherwise.
* The version string `"major.minor"` is modelled as the pair `Versao`;
  `versionKey` renders it back to the string used as a history key.
-/

namespace TotalQuality

/-- `DocumentType = 'POP' | 'Manual' | 'Checklist' | 'Politica'`. -/
inductive DocumentType
  | POP | Manual | Checklist | Politica
deriving DecidableEq, Repr

/-- `DocumentStatus = 'rascunho' | 'revisao' | 'ativo' | 'obsoleto'`. -/
inductive DocumentStatus
  | rascunho | revisao | ativo | obsoleto
deriving DecidableEq, Repr

/-- `ImpactoMargem = 'alto' | 'medio' | 'baixo'`. -/
inductive ImpactoMargem
  | alto | medio | baixo
deriving DecidableEq, Repr

/-- A document version `"major.minor"` (for example `"0.1"`, `"1.0"`, `"2.0"`),
modelled as its two numeric components. -/
structure Versao where
  major : Nat
  minor : Nat
deriving DecidableEq, Repr

/-- Rendering of a `Versao` back to the string form used by the source as
a history-document key (template `${major}.${minor}`). -/
def versionKey (v : Versao) : String :=
  Nat.repr v.major ++ "." ++ Nat.repr v.minor

/-- `DocumentMetadata` from `document.types.ts`. -/
structure DocumentMetadata where
  criadoPor : String
  dataCriacao : Nat
  ultimaRevisao : Nat
deriving DecidableEq, Repr

/-- `AxiomaMetrics` from `document.types.ts`. -/
structure AxiomaMetrics where
  custoManutencao : Int
  impactoMargem : ImpactoMargem
deriving DecidableEq, Repr

/-- The `Document` interface from `document.types.ts`. -/
structure Document where
  docId : String
  orgId : String
  tipo : DocumentType
  titulo : String
  status : DocumentStatus
  versao : Versao
  contentHash : String
  metadata : DocumentMetadata
  axiomaMetrics : AxiomaMetrics
deriving DecidableEq, Repr

/-- `CreateDocumentInput`: caller-supplied fields for `createDocument`;
`custoManutencao` and `impactoMargem` are optional. -/
structure CreateDocumentInput where
  orgId : String
  tipo : DocumentType
  titulo : String
  contentHash : String
  criadoPor : String
  custoManutencao : Option Int
  impactoMargem : Option ImpactoMargem
deriving DecidableEq, Repr

/-- `DocumentHistory`: an archived snapshot stored in the `history`
subcollection. -/
structure DocumentHistory where
  docId : String
  versao : Versao
  documentSnapshot : Document
  arquivadoEm : Nat
  aprovadoPor : String
  motivoMudanca : Option String
deriving DecidableEq, Repr

/-- The persisted state of one document: the `documents/{docId}` record
plus its `history` subcollection (an association list keyed by the
history-document id). -/
structure DocState where
  doc : Document
  history : List (String × DocumentHistory)
deriving DecidableEq, Repr

/-- Firestore `.set` on `history/{k}`: overwrite the entry at key `k`
if one exists, otherwise append a new entry. -/
def histSet (l : List (String × DocumentHistory)) (k : String)
    (e : DocumentHistory) : List (String × DocumentHistory) :=
  if l.any (fun p => p.1 = k) then
    l.map (fun p => if p.1 = k then (k, e) else p)
  else
    l ++ [(k, e)]

/-- Lookup of a history entry by key. -/
def histLookup (l : List (String × DocumentHistory)) (k : String) :
    Option DocumentHistory :=
  (l.find? (fun p => p.1 = k)).map (fun p => p.2)

/-- Number of history entries stored under key `k`. -/
def countKey (l : List (String × DocumentHistory)) (k : String) : Nat :=
  (l.filter (fun p => p.1 = k)).length

/-- `DocumentService.createDocument`: builds the new document record with
status `'rascunho'` and version `"0.1"`; `docId` models the generated
UUID and `now` the creation timestamp. -/
def createDocument (input : CreateDocumentInput) (docId : String)
    (now : Nat) : Document :=
  { docId := docId
    orgId := input.orgId
    tipo := input.tipo
    titulo := input.titulo
    status := DocumentStatus.rascunho
    versao := { major := 0, minor := 1 }
    contentHash := input.contentHash
    metadata :=
      { criadoPor := input.criadoPor
        dataCriacao := now
        ultimaRevisao := now }
    axiomaMetrics :=
      { custoManutencao := input.custoManutencao.getD 0
        impactoMargem := input.impactoMargem.getD ImpactoMargem.baixo } }

/-- `DocumentService.incrementVersion`: `0.x` goes to `1.0`, otherwise the
major component is incremented and the minor reset to `0`. -/
def incrementVersion (currentVersion : Versao) : Versao :=
  if currentVersion.major = 0 then
    { major := 1, minor := 0 }
  else
    { major := currentVersion.major + 1, minor := 0 }

/-- `DocumentService.approveDocument`: fails when the document is absent
or obsolete; archives the current snapshot under the current version key
when the document was active; then activates it with the incremented
version. `store` is the result of the Firestore `get` on
`documents/{docId}`. -/
def approveDocument (docId : String) (store : Option DocState)
    (aprovadoPor : String) (motivoMudanca : Option String) (now : Nat) :
    Except String DocState :=
  match store with
  | none => Except.error ("Documento " ++ docId ++ " não encontrado")
  | some s =>
    let currentDoc := s.doc
    if currentDoc.status = DocumentStatus.obsoleto then
      Except.error "Não é possível aprovar um documento obsoleto"
    else
      let newVersion := incrementVersion currentDoc.versao
      let history1 :=
        if currentDoc.status = DocumentStatus.ativo then
          histSet s.history (versionKey currentDoc.versao)
            { docId := currentDoc.docId
              versao := currentDoc.versao
              documentSnapshot := currentDoc
              arquivadoEm := now
              aprovadoPor := aprovadoPor
              motivoMudanca := motivoMudanca }
        else s.history
      let updatedDoc : Document :=
        { currentDoc with
          status := DocumentStatus.ativo
          versao := newVersion
          metadata := { currentDoc.metadata with ultimaRevisao := now } }
      Except.ok { doc := updatedDoc, history := history1 }

/-- The history key used by `obsoleteDocument`: template
`obsoleto-${versao}`. -/
def retireKey (v : Versao) : String :=
  "obsoleto-" ++ versionKey v

/-- `DocumentService.obsoleteDocument`: fails only when the document is
absent; unconditionally archives the current snapshot under the
`obsoleto-`-prefixed key and sets status `'obsoleto'`, leaving the
version unchanged. -/
def obsoleteDocument (docId : String) (store : Option DocState)
    (motivoObsolescencia : Option String) (now : Nat) :
    Except String DocState :=
  match store with
  | none => Except.error ("Documento " ++ docId ++ " não encontrado")
  | some s =>
    let currentDoc := s.doc
    let historyEntry : DocumentHistory :=
      { docId := currentDoc.docId
        versao := currentDoc.versao
        documentSnapshot := currentDoc
        arquivadoEm := now
        aprovadoPor := "SYSTEM"
        motivoMudanca :=
          some (motivoObsolescencia.getD "Documento marcado como obsoleto") }
    let history1 :=
      histSet s.history (retireKey currentDoc.versao) historyEntry
    let updatedDoc : Document :=
      { currentDoc with
        status := DocumentStatus.obsoleto
        metadata := { currentDoc.metadata with ultimaRevisao := now } }
    Except.ok { doc := updatedDoc, history := history1 }

/-- One lifecycle operation on an existing document. -/
inductive DocOp
  | approve (aprovadoPor : String) (motivoMudanca : Option String) (now : Nat)
  | retire (motivoObsolescencia : Option String) (now : Nat)
deriving DecidableEq, Repr

/-- Runs one operation against the stored state of an existing document;
a thrown error (the only one reachable here is the obsolete-approval
rejection) leaves the store unchanged, since `approveDocument` throws
before any write. -/
def applyOp (s : DocState) (op : DocOp) : DocState :=
  match op with
  | DocOp.approve a m now =>
    match approveDocument s.doc.docId (some s) a m now with
    | Except.ok s' => s'
    | Except.error _ => s
  | DocOp.retire m now =>
    match obsoleteDocument s.doc.docId (some s) m now with
    | Except.ok s' => s'
    | Except.error _ => s

/-- Runs a sequence of lifecycle operations left to right. -/
def runOps (s : DocState) (ops : List DocOp) : DocState :=
  ops.foldl applyOp s

/-- Non-strict order on versions: lexicographic on (major, minor). -/
def verLe (a b : Versao) : Prop :=
  a.major < b.major ∨ (a.major = b.major ∧ a.minor ≤ b.minor)

/-- Strict order on versions: lexicographic on (major, minor). -/
def verLt (a b : Versao) : Prop :=
  a.major < b.major ∨ (a.major = b.major ∧ a.minor < b.minor)

instance (a b : Versao) : Decidable (verLe a b) := by
  unfold verLe; infer_instance

instance (a b : Versao) : Decidable (verLt a b) := by
  unfold verLt; infer_instance

/-- Risk levels of `PredictiveAnalysisService`:
`'alto' | 'médio' | 'baixo'`. -/
inductive RiskLevel
  | alto | medio | baixo
deriving DecidableEq, Repr

/-- `AnalysisThresholds` configuration of `PredictiveAnalysisService`. -/
structure AnalysisThresholds where
  daysUntilRevisionWarning : Int
  daysUntilRevisionRequired : Int
  minConformityScore : Int
  maxNonConformities : Int
deriving DecidableEq, Repr

/-- The default thresholds installed by the constructor when none are
supplied. -/
def defaultThresholds : AnalysisThresholds :=
  { daysUntilRevisionWarning := 90
    daysUntilRevisionRequired := 180
    minConformityScore := 70
    maxNonConformities := 3 }

/-- The mutable locals of `evaluateRevisionNeed` (`reasons`,
`recommendations`, `riskLevel`, `needsRevision`) bundled as a state that
each rule of the evaluation transforms in order. -/
structure EvalState where
  reasons : List String
  recommendations : List String
  riskLevel : RiskLevel
  needsRevision : Bool
deriving DecidableEq, Repr

/-- The initial evaluation state: no reasons, risk `'baixo'`, no
revision needed. -/
def initEvalState : EvalState :=
  { reasons := []
    recommendations := []
    riskLevel := RiskLevel.baixo
    needsRevision := false }

/-- Rule 1 of `evaluateRevisionNeed`: time since last revision. At or
above the required threshold the risk is set to `'alto'`; at or above the
warning threshold the risk is raised from `'baixo'` to `'médio'`. -/
def checkRevisionTime (t : AnalysisThresholds)
    (daysSinceLastRevision : Int) (s : EvalState) : EvalState :=
  let requiredDays := t.daysUntilRevisionRequired
  if daysSinceLastRevision ≥ requiredDays then
    { s with
      reasons := s.reasons ++
        [s!"Última revisão há {daysSinceLastRevision} dias (>= {requiredDays} dias)"]
      recommendations := s.recommendations ++
        ["Revisão obrigatória devido ao tempo decorrido"]
      riskLevel := RiskLevel.alto
      needsRevision := true }
  else if daysSinceLastRevision ≥ t.daysUntilRevisionWarning then
    { s with
      reasons := s.reasons ++
        [s!"Última revisão há {daysSinceLastRevision} dias (próximo do limite)"]
      recommendations := s.recommendations ++ ["Agendar revisão em breve"]
      riskLevel :=
        if s.riskLevel = RiskLevel.baixo then RiskLevel.medio
        else s.riskLevel }
  else s

/-- Rule 2 of `evaluateRevisionNeed`: conformity score below the minimum
threshold sets risk `'alto'`. -/
def checkConformityScore (t : AnalysisThresholds)
    (scoreConformidade : Option Int) (s : EvalState) : EvalState :=
  match scoreConformidade with
  | none => s
  | some score =>
    let minScore := t.minConformityScore
    if score < minScore then
      { s with
        reasons := s.reasons ++
          [s!"Score de conformidade baixo: {score}% (< {minScore}%)"]
        recommendations := s.recommendations ++
          ["Revisar procedimentos para aumentar conformidade"]
        riskLevel := RiskLevel.alto
        needsRevision := true }
    else s

/-- Rule 3 of `evaluateRevisionNeed`: non-conformity count above the
maximum threshold sets risk `'alto'`. -/
def checkNaoConformidades (t : AnalysisThresholds)
    (naoConformidades : Option Int) (s : EvalState) : EvalState :=
  match naoConformidades with
  | none => s
  | some n =>
    let maxNC := t.maxNonConformities
    if n > maxNC then
      { s with
        reasons := s.reasons ++ [s!"Muitas não-conformidades: {n} (> {maxNC})"]
        recommendations := s.recommendations ++
          ["Corrigir não-conformidades identificadas no vídeo"]
        riskLevel := RiskLevel.alto
        needsRevision := true }
    else s

/-- Rule 4 of `evaluateRevisionNeed`: high margin impact sets risk
`'alto'` (the source only assigns when the risk is not already
`'alto'`). -/
def checkImpactoMargem (document : Document) (s : EvalState) : EvalState :=
  if document.axiomaMetrics.impactoMargem = ImpactoMargem.alto then
    { s with
      reasons := s.reasons ++ ["Documento tem alto impacto na margem de lucro"]
      recommendations := s.recommendations ++
        ["Priorizar revisão devido ao alto impacto financeiro"]
      riskLevel :=
        if s.riskLevel ≠ RiskLevel.alto then RiskLevel.alto else s.riskLevel
      needsRevision := true }
  else s

/-- Rule 5 of `evaluateRevisionNeed`: an obsolete document gets an
informational reason without touching risk or `needsRevision`. -/
def checkObsoleto (document : Document) (s : EvalState) : EvalState :=
  if document.status = DocumentStatus.obsoleto then
    { s with
      reasons := s.reasons ++ ["Documento está obsoleto"]
      recommendations := s.recommendations ++
        ["Criar nova versão ou arquivar permanentemente"] }
  else s

/-- Rule 6 of `evaluateRevisionNeed`: when no rule produced a reason,
report compliance. -/
def checkEmpty (s : EvalState) : EvalState :=
  if s.reasons = [] then
    { s with
      reasons := s.reasons ++ ["Documento em conformidade"]
      recommendations := s.recommendations ++
        ["Manter monitoramento periódico"] }
  else s

/-- `PredictiveAnalysisService.evaluateRevisionNeed`: the six rules run
in source order over the initial state. -/
def evaluateRevisionNeed (t : AnalysisThresholds) (document : Document)
    (daysSinceLastRevision : Int) (scoreConformidade : Option Int)
    (naoConformidades : Option Int) : EvalState :=
  checkEmpty
    (checkObsoleto document
      (checkImpactoMargem document
        (checkNaoConformidades t naoConformidades
          (checkConformityScore t scoreConformidade
            (checkRevisionTime t daysSinceLastRevision initEvalState)))))

/-- The `riskOrder` table of `analyzeOrganization`:
`{ alto: 3, médio: 2, baixo: 1 }`. -/
def riskOrder : RiskLevel → Nat
  | RiskLevel.alto => 3
  | RiskLevel.medio => 2
  | RiskLevel.baixo => 1

/-- The `metrics` field of a `DocumentAnalysis`. -/
structure AnalysisMetrics where
  daysSinceLastRevision : Int
  scoreConformidade : Option Int
  naoConformidades : Option Int
  custoManutencao : Int
deriving DecidableEq, Repr

/-- The `DocumentAnalysis` record returned by `analyzeDocument`. -/
structure DocumentAnalysis where
  docId : String
  titulo : String
  status : DocumentStatus
  needsRevision : Bool
  riskLevel : RiskLevel
  reasons : List String
  recommendations : List String
  metrics : AnalysisMetrics
deriving DecidableEq, Repr

/-- The comparator of `analyzeOrganization` as a boolean order: `a` may
come before `b` when `riskOrder[b] ≤ riskOrder[a]` (the source comparator
`riskOrder[b] - riskOrder[a]` is negative exactly when `a`'s risk is
strictly higher, and JavaScript `sort` is stable). -/
def riskGe (a b : DocumentAnalysis) : Bool :=
  riskOrder b.riskLevel ≤ riskOrder a.riskLevel

/-- `PredictiveAnalysisService.analyzeOrganization`: queries the
documents of the tenant with status `'ativo'` or `'revisao'`, analyzes
each one skipping individual failures (the `try`/`catch` around
`analyzeDocument`, modelled by the fallible `analyzeDocument` argument),
and stably sorts the results by descending risk. -/
def analyzeOrganization (orgId : String) (docs : List Document)
    (analyzeDocument : Document → Except String DocumentAnalysis) :
    List DocumentAnalysis :=
  let selected := docs.filter (fun d =>
    decide (d.orgId = orgId ∧
      (d.status = DocumentStatus.ativo ∨ d.status = DocumentStatus.revisao)))
  let analyses := selected.filterMap (fun d => (analyzeDocument d).toOption)
  analyses.mergeSort riskGe

/-- `VideoPOPIntegrationService.calculateMaintenanceCost`: base cost of
50 per step plus 200 per non-conformity. -/
def calculateMaintenanceCost (etapas : Int) (naoConformidades : Int) : Int :=
  let baseCost := etapas * 50
  let nonConformityCost := naoConformidades * 200
  baseCost + nonConformityCost

/-- `VideoPOPIntegrationService.calculateMarginImpact`: three-way
classification from conformity score and non-conformity count (the
source spells the middle literal `'médio'`; it is modelled by the single
middle constructor of `ImpactoMargem`). -/
def calculateMarginImpact (scoreConformidade : Int)
    (naoConformidades : Int) : ImpactoMargem :=
  if scoreConformidade < 70 ∨ naoConformidades > 3 then
    ImpactoMargem.alto
  else if scoreConformidade < 85 ∨ naoConformidades > 1 then
    ImpactoMargem.medio
  else
    ImpactoMargem.baixo

/-- Sample input used by the concrete witnesses. -/
def sampleInput : CreateDocumentInput :=
  { orgId := "org-A"
    tipo := DocumentType.POP
    titulo := "T"
    contentHash := "h"
    criadoPor := "u"
    custoManutencao := none
    impactoMargem := none }

/-- Sample freshly created document used by the concrete witnesses. -/
def sampleDoc : Document :=
  createDocument sampleInput "doc-1" 0

/-- Sample stored state (fresh document, empty history) used by the
concrete witnesses. -/
def sampleState : DocState :=
  { doc := sampleDoc, history := [] }

/-- Sample obsolete stored state used by the concrete witnesses. -/
def sampleObsoleteState : DocState :=
  { doc := { sampleDoc with status := DocumentStatus.obsoleto }, history := [] }

/-- Helper: `find?` over the replace-map of `histSet` returns the new
entry whenever the key occurs in the list. -/
theorem find?_map_replace (l : List (String × DocumentHistory)) (k : String)
    (e : DocumentHistory) (h : l.any (fun p => p.1 = k) = true) :
    (l.map (fun p => if p.1 = k then (k, e) else p)).find?
      (fun p => p.1 = k) = some (k, e) := by
  induction l with
  | nil => simp at h
  | cons p t ih =>
    by_cases hp : p.1 = k
    · simp [hp]
    · have ht : t.any (fun p => p.1 = k) = true := by
        simpa [hp] using h
      simpa [hp] using ih ht

/-- Helper: `find?` over the append branch of `histSet` returns the new
entry whenever the key is fresh. -/
theorem find?_append_fresh (l : List (String × DocumentHistory)) (k : String)
    (e : DocumentHistory) (h : l.any (fun p => p.1 = k) = false) :
    (l ++ [(k, e)]).find? (fun p => p.1 = k) = some (k, e) := by
  induction l with
  | nil => simp
  | cons p t ih =>
    have hp : ¬ p.1 = k := by
      intro hk
      simp [hk] at h
    have ht : t.any (fun p => p.1 = k) = false := by
      simpa [hp] using h
    simpa [hp] using ih ht

/-- Helper: looking up the key just written by `histSet` yields the
written entry. -/
theorem histLookup_histSet (l : List (String × DocumentHistory)) (k : String)
    (e : DocumentHistory) : histLookup (histSet l k e) k = some e := by
  unfold histSet histLookup
  by_cases h : l.any (fun p => p.1 = k) = true
  · rw [if_pos h, find?_map_replace l k e h]
    rfl
  · rw [if_neg h, find?_append_fresh l k e (Bool.eq_false_iff.mpr h)]
    rfl

/-- Helper: a key is stored zero times exactly when no entry carries it. -/
theorem countKey_eq_zero_iff (l : List (String × DocumentHistory))
    (k : String) : countKey l k = 0 ↔ l.any (fun p => p.1 = k) = false := by
  induction l with
  | nil => simp [countKey]
  | cons p t ih =>
    by_cases hp : p.1 = k
    · simp [countKey, hp, List.filter_cons]
    · rw [show countKey (p :: t) k = countKey t k by
        simp [countKey, List.filter_cons, hp]]
      simpa [hp] using ih

/-- Helper: writing to a fresh key grows the history by exactly one
entry. -/
theorem histSet_length_fresh (l : List (String × DocumentHistory))
    (k : String) (e : DocumentHistory) (h : countKey l k = 0) :
    (histSet l k e).length = l.length + 1 := by
  have hany : l.any (fun p => p.1 = k) = false := (countKey_eq_zero_iff l k).mp h
  unfold histSet
  rw [if_neg (by simp [hany])]
  simp

/-- Helper: the replace-map of `histSet` preserves the per-key entry
count. -/
theorem countKey_map_replace (l : List (String × DocumentHistory)) (k : String)
    (e : DocumentHistory) :
    countKey (l.map (fun p => if p.1 = k then (k, e) else p)) k =
      countKey l k := by
  induction l with
  | nil => rfl
  | cons p t ih =>
    by_cases hp : p.1 = k
    · simpa [countKey, hp, List.filter_cons] using ih
    · simpa [countKey, hp, List.filter_cons] using ih

/-- Helper: after a `histSet` the written key is stored exactly once,
provided the store held at most one entry for it (the unique-key
invariant of a Firestore collection). -/
theorem countKey_histSet (l : List (String × DocumentHistory)) (k : String)
    (e : DocumentHistory) (h : countKey l k ≤ 1) :
    countKey (histSet l k e) k = 1 := by
  unfold histSet
  by_cases hany : l.any (fun p => p.1 = k) = true
  · rw [if_pos hany, countKey_map_replace]
    have h1 : countKey l k ≠ 0 := by
      intro h0
      rw [(countKey_eq_zero_iff l k).mp h0] at hany
      exact Bool.false_ne_true hany
    omega
  · have h0 : countKey l k = 0 :=
      (countKey_eq_zero_iff l k).mpr (Bool.eq_false_iff.mpr hany)
    rw [if_neg hany]
    unfold countKey at h0 ⊢
    simp [List.filter_append, h0]

/-- C8: for every extraction record, `maintenanceCost` is the fixed
linear model `stepCount * 50 + nonConformityCount * 200`, and
`marginImpact` is High when `conformityScore < 70` or
`nonConformityCount > 3`, else Medium when `conformityScore < 85` or
`nonConformityCount > 1`, else Low, with the first matching branch
winning; in particular stepCount 4, nonConformityCount 1,
conformityScore 90 give cost 400 and impact Low. -/
theorem calculate_cost_and_margin_impact :
    (∀ etapas naoConformidades : Int,
        calculateMaintenanceCost etapas naoConformidades =
          etapas * 50 + naoConformidades * 200) ∧
    (∀ score nc : Int,
        (calculateMarginImpact score nc = ImpactoMargem.alto ↔
            score < 70 ∨ nc > 3) ∧
        (calculateMarginImpact score nc = ImpactoMargem.medio ↔
            ¬(score < 70 ∨ nc > 3) ∧ (score < 85 ∨ nc > 1)) ∧
        (calculateMarginImpact score nc = ImpactoMargem.baixo ↔
            ¬(score < 70 ∨ nc > 3) ∧ ¬(score < 85 ∨ nc > 1))) ∧
    calculateMaintenanceCost 4 1 = 400 ∧
    calculateMarginImpact 90 1 = ImpactoMargem.baixo := by
  refine ⟨fun etapas naoConformidades => rfl, fun score nc => ?_, by decide, by decide⟩
  unfold calculateMarginImpact
  split_ifs with h1 h2 <;>
    refine ⟨?_, ?_, ?_⟩ <;> simp_all

/-- C3: approving an obsolete document always fails with the
invalid-transition error and leaves both the document and its history
unchanged. -/
theorem approveDocument_obsolete_rejected (docId : String) (s : DocState)
    (a : String) (m : Option String) (now : Nat)
    (h : s.doc.status = DocumentStatus.obsoleto) :
    approveDocument docId (some s) a m now =
      Except.error "Não é possível aprovar um documento obsoleto" ∧
    applyOp s (DocOp.approve a m now) = s := by
  constructor
  · simp [approveDocument, h]
  · simp [applyOp, approveDocument, h]

/-- Witness for C3 at a concrete obsolete document. -/
theorem approveDocument_obsolete_rejected_witness :
    sampleObsoleteState.doc.status = DocumentStatus.obsoleto ∧
    (approveDocument "doc-1" (some sampleObsoleteState) "mgr" none 5 =
        Except.error "Não é possível aprovar um documento obsoleto" ∧
      applyOp sampleObsoleteState (DocOp.approve "mgr" none 5) =
        sampleObsoleteState) :=
  ⟨by decide,
    approveDocument_obsolete_rejected "doc-1" sampleObsoleteState "mgr" none 5
      (by decide)⟩

/-- C1: approving a non-obsolete document succeeds, increments the major
version component by exactly 1, resets the minor component to 0 (a major
of 0 yields version 1.0), and activates the document. -/
theorem approveDocument_version (docId : String) (s : DocState) (a : String)
    (m : Option String) (now : Nat)
    (h : s.doc.status ≠ DocumentStatus.obsoleto) :
    ∃ s', approveDocument docId (some s) a m now = Except.ok s' ∧
      s'.doc.versao.major = s.doc.versao.major + 1 ∧
      s'.doc.versao.minor = 0 ∧
      (s.doc.versao.major = 0 → s'.doc.versao = { major := 1, minor := 0 }) ∧
      s'.doc.status = DocumentStatus.ativo := by
  have hv : ∀ v : Versao, (incrementVersion v).major = v.major + 1 ∧
      (incrementVersion v).minor = 0 ∧
      (v.major = 0 → incrementVersion v = { major := 1, minor := 0 }) := by
    intro v
    unfold incrementVersion
    split_ifs with h0 <;> simp [h0]
  simp only [approveDocument, h, if_false, reduceIte]
  exact ⟨_, rfl, (hv _).1, (hv _).2.1, (hv _).2.2, rfl⟩

/-- Witness for C1 at a concrete draft document. -/
theorem approveDocument_version_witness :
    sampleState.doc.status ≠ DocumentStatus.obsoleto ∧
    (∃ s', approveDocument "doc-1" (some sampleState) "mgr" none 5 =
        Except.ok s' ∧
      s'.doc.versao.major = sampleState.doc.versao.major + 1 ∧
      s'.doc.versao.minor = 0 ∧
      (sampleState.doc.versao.major = 0 →
        s'.doc.versao = { major := 1, minor := 0 }) ∧
      s'.doc.status = DocumentStatus.ativo) :=
  ⟨by decide,
    approveDocument_version "doc-1" sampleState "mgr" none 5 (by decide)⟩

/-- C2: an approval writes a history entry exactly when the current
status is Active; when written it is a single new entry keyed by the
pre-transition version whose snapshot is the pre-transition document,
and an approval from any other status (such as Draft) leaves the history
untouched. -/
theorem approveDocument_history_iff (docId : String) (s s' : DocState)
    (a : String) (m : Option String) (now : Nat)
    (h : approveDocument docId (some s) a m now = Except.ok s') :
    (s.doc.status = DocumentStatus.ativo →
      s'.history = histSet s.history (versionKey s.doc.versao)
        { docId := s.doc.docId, versao := s.doc.versao,
          documentSnapshot := s.doc, arquivadoEm := now,
          aprovadoPor := a, motivoMudanca := m } ∧
      histLookup s'.history (versionKey s.doc.versao) = some
        { docId := s.doc.docId, versao := s.doc.versao,
          documentSnapshot := s.doc, arquivadoEm := now,
          aprovadoPor := a, motivoMudanca := m } ∧
      (countKey s.history (versionKey s.doc.versao) = 0 →
        s'.history.length = s.history.length + 1)) ∧
    (s.doc.status ≠ DocumentStatus.ativo → s'.history = s.history) := by
  by_cases hobs : s.doc.status = DocumentStatus.obsoleto
  · simp [approveDocument, hobs] at h
  · simp only [approveDocument, hobs, if_false, reduceIte, Except.ok.injEq] at h
    subst h
    constructor
    · intro hact
      refine ⟨by simp [hact], ?_, ?_⟩
      · simp [hact, histLookup_histSet]
      · intro hfresh
        simp [hact, histSet_length_fresh _ _ _ hfresh]
    · intro hne
      simp [hne]

/-- Sample active stored state (version 1.0) used by the concrete
witnesses. -/
def sampleActiveState : DocState :=
  { doc :=
      { sampleDoc with
        status := DocumentStatus.ativo,
        versao := { major := 1, minor := 0 } },
    history := [] }

/-- Witness for C2 at a concrete active document. -/
theorem approveDocument_history_iff_witness :
    ∃ s', approveDocument "doc-1" (some sampleActiveState) "mgr2" none 7 =
        Except.ok s' ∧
      ((sampleActiveState.doc.status = DocumentStatus.ativo →
        s'.history = histSet sampleActiveState.history
          (versionKey sampleActiveState.doc.versao)
          { docId := sampleActiveState.doc.docId,
            versao := sampleActiveState.doc.versao,
            documentSnapshot := sampleActiveState.doc, arquivadoEm := 7,
            aprovadoPor := "mgr2", motivoMudanca := none } ∧
        histLookup s'.history (versionKey sampleActiveState.doc.versao) = some
          { docId := sampleActiveState.doc.docId,
            versao := sampleActiveState.doc.versao,
            documentSnapshot := sampleActiveState.doc, arquivadoEm := 7,
            aprovadoPor := "mgr2", motivoMudanca := none } ∧
        (countKey sampleActiveState.history
            (versionKey sampleActiveState.doc.versao) = 0 →
          s'.history.length = sampleActiveState.history.length + 1)) ∧
      (sampleActiveState.doc.status ≠ DocumentStatus.ativo →
        s'.history = sampleActiveState.history)) :=
  ⟨_, rfl,
    approveDocument_history_iff "doc-1" sampleActiveState _ "mgr2" none 7 rfl⟩

/-- Helper: `Nat.digitChar` of a value below 10 is a decimal digit. -/
theorem digitChar_isDigit (m : Nat) (h : m < 10) :
    (Nat.digitChar m).isDigit = true := by
  interval_cases m <;> decide

/-- Helper: every character produced by `Nat.toDigitsCore` in base 10 is
a decimal digit or comes from the accumulator. -/
theorem toDigitsCore_digits (fuel : Nat) :
    ∀ (n : Nat) (ds : List Char), ∀ c ∈ Nat.toDigitsCore 10 fuel n ds,
      c.isDigit = true ∨ c ∈ ds := by
  induction fuel with
  | zero => intro n ds c hc; exact Or.inr hc
  | succ fuel ih =>
    intro n ds c hc
    simp only [Nat.toDigitsCore] at hc
    have hlt : n % 10 < 10 := Nat.mod_lt _ (by norm_num)
    split at hc
    · rcases List.mem_cons.mp hc with h | h
      · exact Or.inl (h ▸ digitChar_isDigit _ hlt)
      · exact Or.inr h
    · rcases ih (n / 10) (Nat.digitChar (n % 10) :: ds) c hc with h | h
      · exact Or.inl h
      · rcases List.mem_cons.mp h with h | h
        · exact Or.inl (h ▸ digitChar_isDigit _ hlt)
        · exact Or.inr h

/-- Helper: every character of `Nat.repr n` is a decimal digit. -/
theorem repr_chars_isDigit (n : Nat) :
    ∀ c ∈ (Nat.repr n).data, c.isDigit = true := by
  intro c hc
  have hm : c ∈ Nat.toDigitsCore 10 (n + 1) n [] := hc
  rcases toDigitsCore_digits (n + 1) n [] c hm with h | h
  · exact h
  · simp at h

/-- Helper: every character of a rendered version key is a decimal digit
or the dot separator. -/
theorem versionKey_chars (v : Versao) :
    ∀ c ∈ (versionKey v).data, c.isDigit = true ∨ c = '.' := by
  intro c hc
  unfold versionKey at hc
  rw [String.data_append, String.data_append] at hc
  rcases List.mem_append.mp hc with h | h
  · rcases List.mem_append.mp h with h | h
    · exact Or.inl (repr_chars_isDigit _ c h)
    · right
      simpa using h
  · exact Or.inl (repr_chars_isDigit _ c h)

/-- Helper: retirement history keys (`obsoleto-` prefixed) never collide
with approval history keys (bare rendered versions). -/
theorem retireKey_ne_versionKey (v v' : Versao) :
    retireKey v ≠ versionKey v' := by
  intro h
  have ho : 'o' ∈ (versionKey v').data := by
    rw [← h]
    unfold retireKey
    rw [String.data_append]
    exact List.mem_append.mpr (Or.inl (by decide))
  rcases versionKey_chars v' 'o' ho with hd | hd <;> exact absurd hd (by decide)

/-- C4: retiring an existing document always succeeds; it archives the
current snapshot under the `obsoleto-` prefixed key — a key space
disjoint from approval-triggered keys, so both can coexist for the same
version — growing the history by exactly one entry when the key is
fresh, then sets status Obsolete, updates the last-revision timestamp
and leaves the version unchanged. -/
theorem obsoleteDocument_effects (docId : String) (s : DocState)
    (m : Option String) (now : Nat) :
    ∃ s', obsoleteDocument docId (some s) m now = Except.ok s' ∧
      s'.history = histSet s.history (retireKey s.doc.versao)
        { docId := s.doc.docId, versao := s.doc.versao,
          documentSnapshot := s.doc, arquivadoEm := now,
          aprovadoPor := "SYSTEM",
          motivoMudanca := some (m.getD "Documento marcado como obsoleto") } ∧
      histLookup s'.history (retireKey s.doc.versao) = some
        { docId := s.doc.docId, versao := s.doc.versao,
          documentSnapshot := s.doc, arquivadoEm := now,
          aprovadoPor := "SYSTEM",
          motivoMudanca := some (m.getD "Documento marcado como obsoleto") } ∧
      (countKey s.history (retireKey s.doc.versao) = 0 →
        s'.history.length = s.history.length + 1) ∧
      (∀ v v' : Versao, retireKey v ≠ versionKey v') ∧
      s'.doc.status = DocumentStatus.obsoleto ∧
      s'.doc.metadata.ultimaRevisao = now ∧
      s'.doc.versao = s.doc.versao := by
  refine ⟨_, rfl, rfl, histLookup_histSet _ _ _, ?_, retireKey_ne_versionKey,
    rfl, rfl, rfl⟩
  intro hfresh
  exact histSet_length_fresh _ _ _ hfresh

/-- Witness for C4 at a concrete active document. -/
theorem obsoleteDocument_effects_witness :
    ∃ s', obsoleteDocument "doc-1" (some sampleActiveState) none 9 =
        Except.ok s' ∧
      s'.history = histSet sampleActiveState.history
        (retireKey sampleActiveState.doc.versao)
        { docId := sampleActiveState.doc.docId,
          versao := sampleActiveState.doc.versao,
          documentSnapshot := sampleActiveState.doc, arquivadoEm := 9,
          aprovadoPor := "SYSTEM",
          motivoMudanca := some "Documento marcado como obsoleto" } ∧
      histLookup s'.history (retireKey sampleActiveState.doc.versao) = some
        { docId := sampleActiveState.doc.docId,
          versao := sampleActiveState.doc.versao,
          documentSnapshot := sampleActiveState.doc, arquivadoEm := 9,
          aprovadoPor := "SYSTEM",
          motivoMudanca := some "Documento marcado como obsoleto" } ∧
      (countKey sampleActiveState.history
          (retireKey sampleActiveState.doc.versao) = 0 →
        s'.history.length = sampleActiveState.history.length + 1) ∧
      (∀ v v' : Versao, retireKey v ≠ versionKey v') ∧
      s'.doc.status = DocumentStatus.obsoleto ∧
      s'.doc.metadata.ultimaRevisao = 9 ∧
      s'.doc.versao = sampleActiveState.doc.versao :=
  obsoleteDocument_effects "doc-1" sampleActiveState none 9

/-- Helper: `verLe` is reflexive. -/
theorem verLe_refl (v : Versao) : verLe v v :=
  Or.inr ⟨rfl, Nat.le_refl _⟩

/-- Helper: `verLe` is transitive. -/
theorem verLe_trans {a b c : Versao} (h1 : verLe a b) (h2 : verLe b c) :
    verLe a c := by
  unfold verLe at *
  omega

/-- Helper: a retire call rewrites the stored state to the explicitly
archived-and-obsoleted record. -/
theorem applyRetire_eq (s : DocState) (m : Option String) (now : Nat) :
    applyOp s (DocOp.retire m now) =
      { doc :=
          { s.doc with
            status := DocumentStatus.obsoleto,
            metadata := { s.doc.metadata with ultimaRevisao := now } },
        history := histSet s.history (retireKey s.doc.versao)
          { docId := s.doc.docId, versao := s.doc.versao,
            documentSnapshot := s.doc, arquivadoEm := now,
            aprovadoPor := "SYSTEM",
            motivoMudanca :=
              some (m.getD "Documento marcado como obsoleto") } } :=
  rfl

/-- Helper: retiring never changes the stored version. -/
theorem applyRetire_versao (s : DocState) (m : Option String) (now : Nat) :
    (applyOp s (DocOp.retire m now)).doc.versao = s.doc.versao := by
  rw [applyRetire_eq]

/-- Helper: no lifecycle operation changes `orgId`. -/
theorem applyOp_orgId (s : DocState) (op : DocOp) :
    (applyOp s op).doc.orgId = s.doc.orgId := by
  cases op with
  | approve a m now =>
    by_cases hobs : s.doc.status = DocumentStatus.obsoleto
    · simp [applyOp, approveDocument, hobs]
    · simp [applyOp, approveDocument, hobs]
  | retire m now => rw [applyRetire_eq]

/-- Helper: no lifecycle operation decreases the version. -/
theorem applyOp_verLe (s : DocState) (op : DocOp) :
    verLe s.doc.versao (applyOp s op).doc.versao := by
  cases op with
  | approve a m now =>
    by_cases hobs : s.doc.status = DocumentStatus.obsoleto
    · simp [applyOp, approveDocument, hobs, verLe_refl]
    · simp only [applyOp, approveDocument, hobs, if_false, reduceIte]
      unfold incrementVersion verLe
      split_ifs with h0 <;> simp [h0]
  | retire m now =>
    rw [applyRetire_versao]
    exact verLe_refl _

/-- Helper: `orgId` is constant and the version non-decreasing along any
operation sequence. -/
theorem runOps_orgId_verLe (s : DocState) (ops : List DocOp) :
    (runOps s ops).doc.orgId = s.doc.orgId ∧
    verLe s.doc.versao (runOps s ops).doc.versao := by
  induction ops generalizing s with
  | nil => exact ⟨rfl, verLe_refl _⟩
  | cons op rest ih =>
    have h := ih (applyOp s op)
    refine ⟨?_, ?_⟩
    · exact h.1.trans (applyOp_orgId s op)
    · exact verLe_trans (applyOp_verLe s op) h.2

/-- C5: `orgId` is fixed at creation and never changed by any sequence
of lifecycle operations; the version starts at 0.1, never decreases
across a lifetime, strictly increases on every successful approval, and
is untouched by retirement. -/
theorem lifecycle_invariants :
    (∀ input docId now, (createDocument input docId now).orgId = input.orgId ∧
      (createDocument input docId now).versao = { major := 0, minor := 1 }) ∧
    (∀ s ops, (runOps s ops).doc.orgId = s.doc.orgId ∧
      verLe s.doc.versao (runOps s ops).doc.versao) ∧
    (∀ s a m now, applyOp s (DocOp.approve a m now) = s ∨
      verLt s.doc.versao (applyOp s (DocOp.approve a m now)).doc.versao) ∧
    (∀ s m now, (applyOp s (DocOp.retire m now)).doc.versao = s.doc.versao) := by
  refine ⟨fun input docId now => ⟨rfl, rfl⟩, runOps_orgId_verLe, ?_,
    applyRetire_versao⟩
  intro s a m now
  by_cases hobs : s.doc.status = DocumentStatus.obsoleto
  · left
    simp [applyOp, approveDocument, hobs]
  · right
    simp only [applyOp, approveDocument, hobs, if_false, reduceIte]
    unfold incrementVersion verLt
    split_ifs with h0 <;> simp [h0]

/-- Repeated retirement calls: the state reached by folding retire calls
(given as reason/timestamp pairs) over a stored document. -/
def retireSeq (s : DocState) (calls : List (Option String × Nat)) :
    DocState :=
  calls.foldl (fun st c => applyOp st (DocOp.retire c.1 c.2)) s

/-- Helper: repeated retirement never changes the stored version. -/
theorem retireSeq_versao (s : DocState)
    (calls : List (Option String × Nat)) :
    (retireSeq s calls).doc.versao = s.doc.versao := by
  induction calls generalizing s with
  | nil => rfl
  | cons c rest ih =>
    have h : retireSeq s (c :: rest) =
        retireSeq (applyOp s (DocOp.retire c.1 c.2)) rest := rfl
    rw [h, ih, applyRetire_versao]

/-- Helper: repeated retirement keeps at most one entry under the
retirement key. -/
theorem retireSeq_countKey (s : DocState)
    (calls : List (Option String × Nat))
    (h : countKey s.history (retireKey s.doc.versao) ≤ 1) :
    countKey (retireSeq s calls).history (retireKey s.doc.versao) ≤ 1 := by
  induction calls generalizing s with
  | nil => exact h
  | cons c rest ih =>
    have hstep : retireSeq s (c :: rest) =
        retireSeq (applyOp s (DocOp.retire c.1 c.2)) rest := rfl
    have hv := applyRetire_versao s c.1 c.2
    have h1 : countKey (applyOp s (DocOp.retire c.1 c.2)).history
        (retireKey s.doc.versao) = 1 := by
      rw [applyRetire_eq]
      exact countKey_histSet _ _ _ h
    have := ih (applyOp s (DocOp.retire c.1 c.2))
      (by rw [hv]; exact Nat.le_of_eq h1)
    rw [hstep]
    rwa [hv] at this

/-- C10: retire has no status precondition — it succeeds on any existing
document (including an already-obsolete one) and fails only on an
absent one; and since the version never changes, every further
retirement writes to the same history key, so after any
`calls ++ [(m, now)]` sequence of retirements the history holds exactly
one retirement-keyed entry, containing the snapshot taken just before
the last call. -/
theorem obsoleteDocument_no_precondition :
    (∀ docId s m now, ∃ s',
      obsoleteDocument docId (some s) m now = Except.ok s') ∧
    (∀ docId m now, obsoleteDocument docId none m now =
      Except.error ("Documento " ++ docId ++ " não encontrado")) ∧
    (∀ s calls m now,
      countKey s.history (retireKey s.doc.versao) ≤ 1 →
      countKey (retireSeq s (calls ++ [(m, now)])).history
          (retireKey s.doc.versao) = 1 ∧
      histLookup (retireSeq s (calls ++ [(m, now)])).history
          (retireKey s.doc.versao) = some
        { docId := (retireSeq s calls).doc.docId,
          versao := (retireSeq s calls).doc.versao,
          documentSnapshot := (retireSeq s calls).doc,
          arquivadoEm := now, aprovadoPor := "SYSTEM",
          motivoMudanca :=
            some (m.getD "Documento marcado como obsoleto") }) := by
  refine ⟨fun docId s m now => ⟨_, rfl⟩, fun docId m now => rfl, ?_⟩
  intro s calls m now h
  have hv := retireSeq_versao s calls
  have hcnt := retireSeq_countKey s calls h
  have happ : retireSeq s (calls ++ [(m, now)]) =
      applyOp (retireSeq s calls) (DocOp.retire m now) := by
    unfold retireSeq
    rw [List.foldl_append]
    rfl
  rw [happ, applyRetire_eq]
  constructor
  · rw [← hv]
    exact countKey_histSet _ _ _ (by rwa [hv])
  · rw [← hv]
    exact histLookup_histSet _ _ _

/-- Witness for C10: two consecutive retirements of a concrete active
document. -/
theorem obsoleteDocument_no_precondition_witness :
    countKey sampleActiveState.history
        (retireKey sampleActiveState.doc.versao) ≤ 1 ∧
    (countKey (retireSeq sampleActiveState
          ([(none, 3)] ++ [(none, 4)])).history
        (retireKey sampleActiveState.doc.versao) = 1 ∧
      histLookup (retireSeq sampleActiveState
          ([(none, 3)] ++ [(none, 4)])).history
        (retireKey sampleActiveState.doc.versao) = some
        { docId := (retireSeq sampleActiveState [(none, 3)]).doc.docId,
          versao := (retireSeq sampleActiveState [(none, 3)]).doc.versao,
          documentSnapshot := (retireSeq sampleActiveState [(none, 3)]).doc,
          arquivadoEm := 4, aprovadoPor := "SYSTEM",
          motivoMudanca := some "Documento marcado como obsoleto" }) :=
  ⟨by decide,
    obsoleteDocument_no_precondition.2.2 sampleActiveState [(none, 3)] none 4
      (by decide)⟩

/-- Order on risk levels via the `riskOrder` table:
`baixo < medio < alto`. -/
def riskLevelLe (a b : RiskLevel) : Prop :=
  riskOrder a ≤ riskOrder b

instance (a b : RiskLevel) : Decidable (riskLevelLe a b) := by
  unfold riskLevelLe; infer_instance

/-- C6: the risk classification is monotone through the rule sequence of
one evaluation — every rule's output risk is at least its input risk,
the informational rules keep it unchanged, `alto` is above everything
(so once any rule raises to High no later rule lowers it), and a level
at least `medio` can never fall back to `baixo` (so the warning-days
raise is never reverted). -/
theorem evaluateRevisionNeed_monotonic :
    (∀ t days s, riskLevelLe s.riskLevel (checkRevisionTime t days s).riskLevel) ∧
    (∀ t score s, riskLevelLe s.riskLevel
      (checkConformityScore t score s).riskLevel) ∧
    (∀ t nc s, riskLevelLe s.riskLevel
      (checkNaoConformidades t nc s).riskLevel) ∧
    (∀ d s, riskLevelLe s.riskLevel (checkImpactoMargem d s).riskLevel) ∧
    (∀ d s, (checkObsoleto d s).riskLevel = s.riskLevel) ∧
    (∀ s, (checkEmpty s).riskLevel = s.riskLevel) ∧
    (∀ l, riskLevelLe RiskLevel.alto l ↔ l = RiskLevel.alto) ∧
    (∀ l, riskLevelLe RiskLevel.medio l ↔ l ≠ RiskLevel.baixo) := by
  refine ⟨?_, ?_, ?_, ?_, ?_, ?_, ?_, ?_⟩
  · intro t days s
    unfold checkRevisionTime riskLevelLe
    by_cases h1 : days ≥ t.daysUntilRevisionRequired
    · rw [if_pos h1]
      cases s.riskLevel <;> simp [riskOrder]
    · rw [if_neg h1]
      by_cases h2 : days ≥ t.daysUntilRevisionWarning
      · rw [if_pos h2]
        cases hr : s.riskLevel <;> simp [hr, riskOrder]
      · rw [if_neg h2]
  · intro t score s
    unfold checkConformityScore riskLevelLe
    cases score with
    | none => exact le_refl _
    | some sc =>
      dsimp only
      by_cases h1 : sc < t.minConformityScore
      · rw [if_pos h1]
        cases s.riskLevel <;> simp [riskOrder]
      · rw [if_neg h1]
  · intro t nc s
    unfold checkNaoConformidades riskLevelLe
    cases nc with
    | none => exact le_refl _
    | some n =>
      dsimp only
      by_cases h1 : n > t.maxNonConformities
      · rw [if_pos h1]
        cases s.riskLevel <;> simp [riskOrder]
      · rw [if_neg h1]
  · intro d s
    unfold checkImpactoMargem riskLevelLe
    by_cases h1 : d.axiomaMetrics.impactoMargem = ImpactoMargem.alto
    · rw [if_pos h1]
      cases hr : s.riskLevel <;> simp [hr, riskOrder]
    · rw [if_neg h1]
  · intro d s
    unfold checkObsoleto
    split_ifs <;> rfl
  · intro s
    unfold checkEmpty
    split_ifs <;> rfl
  · intro l
    cases l <;> simp [riskLevelLe, riskOrder]
  · intro l
    cases l <;> simp [riskLevelLe, riskOrder]

/-- The correlation invariant between the `needsRevision` flag and the
risk level within one evaluation. -/
def RiskInv (s : EvalState) : Prop :=
  s.needsRevision = true ↔ s.riskLevel = RiskLevel.alto

/-- Helper: rule 1 preserves the flag/level correlation. -/
theorem riskInv_checkRevisionTime (t : AnalysisThresholds) (days : Int)
    {s : EvalState} (h : RiskInv s) : RiskInv (checkRevisionTime t days s) := by
  unfold RiskInv checkRevisionTime at *
  by_cases h1 : days ≥ t.daysUntilRevisionRequired
  · rw [if_pos h1]
    simp
  · rw [if_neg h1]
    by_cases h2 : days ≥ t.daysUntilRevisionWarning
    · rw [if_pos h2]
      cases hr : s.riskLevel <;> simp_all
    · rw [if_neg h2]
      exact h

/-- Helper: rule 2 preserves the flag/level correlation. -/
theorem riskInv_checkConformityScore (t : AnalysisThresholds)
    (score : Option Int) {s : EvalState} (h : RiskInv s) :
    RiskInv (checkConformityScore t score s) := by
  unfold RiskInv checkConformityScore at *
  cases score with
  | none => exact h
  | some sc =>
    dsimp only
    split_ifs <;> simp_all

/-- Helper: rule 3 preserves the flag/level correlation. -/
theorem riskInv_checkNaoConformidades (t : AnalysisThresholds)
    (nc : Option Int) {s : EvalState} (h : RiskInv s) :
    RiskInv (checkNaoConformidades t nc s) := by
  unfold RiskInv checkNaoConformidades at *
  cases nc with
  | none => exact h
  | some n =>
    dsimp only
    split_ifs <;> simp_all

/-- Helper: rule 4 preserves (indeed establishes) the flag/level
correlation. -/
theorem riskInv_checkImpactoMargem (d : Document) {s : EvalState}
    (h : RiskInv s) : RiskInv (checkImpactoMargem d s) := by
  unfold RiskInv checkImpactoMargem at *
  by_cases h1 : d.axiomaMetrics.impactoMargem = ImpactoMargem.alto
  · rw [if_pos h1]
    cases hr : s.riskLevel <;> simp_all
  · rw [if_neg h1]
    exact h

/-- Helper: rule 5 preserves the flag/level correlation. -/
theorem riskInv_checkObsoleto (d : Document) {s : EvalState}
    (h : RiskInv s) : RiskInv (checkObsoleto d s) := by
  unfold RiskInv checkObsoleto at *
  split_ifs <;> simp_all

/-- Helper: rule 6 preserves the flag/level correlation. -/
theorem riskInv_checkEmpty {s : EvalState} (h : RiskInv s) :
    RiskInv (checkEmpty s) := by
  unfold RiskInv checkEmpty at *
  split_ifs <;> simp_all

/-- C9: the returned `needsRevision` flag is true exactly when the
returned risk level is `alto`: every rule that sets the flag also sets
the level to High, and the Medium and Low outcomes carry a false
flag. -/
theorem needsRevision_iff_alto (t : AnalysisThresholds) (document : Document)
    (days : Int) (score nc : Option Int) :
    (evaluateRevisionNeed t document days score nc).needsRevision = true ↔
    (evaluateRevisionNeed t document days score nc).riskLevel =
      RiskLevel.alto := by
  have h0 : RiskInv initEvalState := by
    unfold RiskInv initEvalState
    simp
  exact riskInv_checkEmpty
    (riskInv_checkObsoleto document
      (riskInv_checkImpactoMargem document
        (riskInv_checkNaoConformidades t nc
          (riskInv_checkConformityScore t score
            (riskInv_checkRevisionTime t days h0)))))

/-- Helper: the comparator of `analyzeOrganization` is transitive. -/
theorem riskGe_trans (a b c : DocumentAnalysis) (hab : riskGe a b)
    (hbc : riskGe b c) : riskGe a c := by
  simp only [riskGe, decide_eq_true_eq] at *
  omega

/-- Helper: the comparator of `analyzeOrganization` is total. -/
theorem riskGe_total (a b : DocumentAnalysis) : riskGe a b || riskGe b a := by
  simp only [riskGe, Bool.or_eq_true, decide_eq_true_eq]
  omega

/-- C7: `analyzeOrganization` returns exactly the successfully analyzed
documents of the tenant whose status is Active or InReview (individual
analysis failures are skipped, not fatal), sorted by risk descending,
and the sort is stable — for every risk level the entries carrying it
appear in their input order. -/
theorem analyzeOrganization_sorted_stable (orgId : String)
    (docs : List Document)
    (analyzeDocument : Document → Except String DocumentAnalysis) :
    List.Perm (analyzeOrganization orgId docs analyzeDocument)
      ((docs.filter (fun d => decide (d.orgId = orgId ∧
          (d.status = DocumentStatus.ativo ∨
            d.status = DocumentStatus.revisao)))).filterMap
        (fun d => (analyzeDocument d).toOption)) ∧
    (analyzeOrganization orgId docs analyzeDocument).Pairwise
      (fun a b => riskOrder b.riskLevel ≤ riskOrder a.riskLevel) ∧
    (∀ r : RiskLevel,
      (analyzeOrganization orgId docs analyzeDocument).filter
          (fun a => decide (a.riskLevel = r)) =
        ((docs.filter (fun d => decide (d.orgId = orgId ∧
            (d.status = DocumentStatus.ativo ∨
              d.status = DocumentStatus.revisao)))).filterMap
          (fun d => (analyzeDocument d).toOption)).filter
          (fun a => decide (a.riskLevel = r))) := by
  refine ⟨List.mergeSort_perm _ _, ?_, ?_⟩
  · exact List.Pairwise.imp (fun h => by simpa [riskGe] using h)
      (List.sorted_mergeSort riskGe_trans riskGe_total _)
  · intro r
    set analyses := (docs.filter (fun d => decide (d.orgId = orgId ∧
        (d.status = DocumentStatus.ativo ∨
          d.status = DocumentStatus.revisao)))).filterMap
      (fun d => (analyzeDocument d).toOption) with hA
    set p : DocumentAnalysis → Bool := fun a => decide (a.riskLevel = r)
      with hp
    have hmemp : ∀ a ∈ analyses.filter p, a.riskLevel = r := by
      intro a ha
      have := (List.mem_filter.mp ha).2
      simpa [hp] using this
    have hpw : (analyses.filter p).Pairwise (fun a b => riskGe a b = true) := by
      apply List.pairwise_of_forall_mem_list
      intro a ha b hb
      simp only [riskGe, hmemp a ha, hmemp b hb, decide_eq_true_eq]
      exact Nat.le_refl _
    have hsub : List.Sublist (analyses.filter p) (analyses.mergeSort riskGe) :=
      List.sublist_mergeSort riskGe_trans riskGe_total hpw
        (List.filter_sublist analyses)
    have hsubf : List.Sublist (analyses.filter p)
        ((analyses.mergeSort riskGe).filter p) := by
      have h1 := List.Sublist.filter p hsub
      rwa [List.filter_eq_self.mpr
        (fun a ha => (List.mem_filter.mp ha).2)] at h1
    have hperm : List.Perm ((analyses.mergeSort riskGe).filter p)
        (analyses.filter p) :=
      (List.mergeSort_perm analyses riskGe).filter p
    have hlen : (analyses.filter p).length =
        ((analyses.mergeSort riskGe).filter p).length :=
      (hperm.length_eq).symm
    exact (List.Sublist.eq_of_length hsubf hlen).symm

end TotalQuality
